import Mathlib

/-!
Verification development for the ai-course-recommender pipeline.

The Python sources `src/course_analytics.py` and `src/vector_search.py` are
shallowly embedded below.  Python floats are modelled as exact rationals
(every decimal literal in the source is representable and no claim depends
on binary rounding), Python dicts with optional keys become structures of
`Option` fields, and `dict.get(k, d)` becomes `Option.getD`.  The external
Embedding Service, numpy cosine arithmetic, and the SQLite connection are
out-of-scope collaborators per the specification; they are abstracted as
explicit parameters (a per-row similarity value, a list of catalog rows,
an `Except` outcome for the guarded retrieval steps), while every piece of
control flow, defaulting, filtering, sorting, truncation and string
formatting in the repository code is embedded directly.
-/

/-- Python `str.lower()` (ASCII case mapping; all level names, keywords and
catalog strings involved are ASCII). -/
def pyLower (s : String) : String := String.mk (s.data.map Char.toLower)

/-- Tests whether the first list is a leading segment of the second. -/
def leadMatch [BEq α] : List α → List α → Bool
  | [], _ => true
  | _ :: _, [] => false
  | a :: pa, b :: lb => a == b && leadMatch pa lb

/-- Tests whether `pat` occurs as a contiguous segment of the second list. -/
def hasSeq [BEq α] (pat : List α) : List α → Bool
  | [] => leadMatch pat []
  | b :: l => leadMatch pat (b :: l) || hasSeq pat l

/-- Python substring test `sub in s`. -/
def pyIn (sub s : String) : Bool := hasSeq sub.data s.data

/-- Python `min` on two floats, modelled over ℚ. -/
def pymin (a b : ℚ) : ℚ := if a ≤ b then a else b

/-- Helper for first-occurrence deduplication. -/
def dedupAux [BEq α] (seen : List α) : List α → List α
  | [] => []
  | a :: as => if seen.contains a then dedupAux seen as else a :: dedupAux (a :: seen) as

/-- Deduplication keeping first occurrences.  Models Python `list(set(xs))`,
whose iteration order is unspecified; only membership, length and
duplicate-freeness of the result are relied on anywhere. -/
def dedupKeepFirst [BEq α] (l : List α) : List α := dedupAux [] l

/-- Candidate course dict (`courses: List[Dict[str, Any]]` in the source).
Every key a candidate may or may not carry becomes an `Option` field. -/
structure Course where
  course_id : Option String := none
  title : Option String := none
  provider : Option String := none
  level : Option String := none
  duration_hours : Option Int := none
  modality : Option String := none
  tags : Option (List String) := none
  prerequisites : Option (List String) := none
  similarity_score : Option ℚ := none
  course_rating : Option ℚ := none
  enrollment_count : Option Int := none
  certification_offered : Option Bool := none
deriving Repr

/-- The `user_preferences` dict read by `analyze_course_recommendations`. -/
structure Prefs where
  skill_level : Option String := none
  modality : Option String := none
  provider_preference : Option String := none
  max_duration_hours : Option Int := none
deriving Repr

/-- The `CourseRecommendation` pydantic model of `course_analytics.py`. -/
structure CourseRecommendation where
  course_id : String
  title : String
  provider : String
  level : String
  duration_hours : Int
  modality : String
  tags : List String
  recommendation_score : ℚ
  recommendation_reason : String
  similarity_score : ℚ
deriving Repr

/-- Line 83: `base_score = course.get('similarity_score', 0.5)`. -/
def base_score (course : Course) : ℚ := course.similarity_score.getD (1/2)

/-- Lines 86-92: the quality indicators boost. -/
def quality_boost (course : Course) : ℚ :=
  (if (4 : ℚ) ≤ course.course_rating.getD 0 then 1/10 else 0)
  + (if (1000 : Int) < course.enrollment_count.getD 0 then 1/20 else 0)
  + (if course.certification_offered.getD false then 1/20 else 0)

/-- Lines 95-107: the user preference alignment boost.  Note the source
lowercases the candidate `level`/`modality` but compares them with the raw
preference values; Python dict truthiness (`if user_preferences.get(...)`)
makes an absent or empty provider preference, and an absent or zero
`max_duration_hours`, skip their checks. -/
def preference_boost (course : Course) (p : Prefs) : ℚ :=
  (if p.skill_level = some (pyLower (course.level.getD "")) then 1/10 else 0)
  + (if p.modality = some (pyLower (course.modality.getD "")) then 1/20 else 0)
  + (if p.provider_preference.getD "" ≠ ""
        ∧ pyIn (pyLower (p.provider_preference.getD "")) (pyLower (course.provider.getD ""))
     then 1/20 else 0)
  + (if p.max_duration_hours.getD 0 ≠ 0
        ∧ course.duration_hours.getD 0 ≤ p.max_duration_hours.getD 0
     then 1/20 else 0)

/-- Lines 113-123: the ordered reason checklist. -/
def reasonsOf (course : Course) (p : Prefs) : List String :=
  (if base_score course > 4/5 then ["highly relevant to your query"] else [])
  ++ (if course.certification_offered.getD false then ["offers professional certification"] else [])
  ++ (if quality_boost course > 1/10 then ["highly rated by students"] else [])
  ++ (if preference_boost course p > 1/20 then ["matches your preferences"] else [])

/-- Lines 109-136: scoring of a single candidate, producing the
`CourseRecommendation` appended to the output list. -/
def scoreCourse (p : Prefs) (course : Course) : CourseRecommendation :=
  let reasons := reasonsOf course p
  { course_id := course.course_id.getD ""
    title := course.title.getD ""
    provider := course.provider.getD ""
    level := course.level.getD ""
    duration_hours := course.duration_hours.getD 0
    modality := course.modality.getD ""
    tags := course.tags.getD []
    recommendation_score := pymin 1 (base_score course + quality_boost course + preference_boost course p)
    recommendation_reason :=
      if reasons.isEmpty then "Good match for your needs"
      else String.intercalate ", " (reasons.take 2)
    similarity_score := base_score course }

/-- Lines 66-143: `analyze_course_recommendations`.  The final
`recommendations.sort(key=..., reverse=True)` is Python's stable sort,
rendered as insertion sort (the unique stable sort of a total preorder). -/
def analyze_course_recommendations (courses : List Course) (user_preferences : Prefs := {}) :
    List CourseRecommendation :=
  if courses.isEmpty then []
  else
    List.insertionSort
      (fun a b : CourseRecommendation => b.recommendation_score ≤ a.recommendation_score)
      (courses.map (scoreCourse user_preferences))

/-- The `LearningPath` pydantic model. -/
structure LearningPath where
  path_name : String
  path_description : String
  total_duration_hours : Int
  estimated_completion_months : Int
  skill_progression : List String
  courses : List CourseRecommendation
deriving Repr

/-- Line 166: `skill_order = ...` together with `.get(x, 2)` lookups. -/
def skill_order_get (s : String) : Nat :=
  if s = "beginner" then 1
  else if s = "intermediate" then 2
  else if s = "advanced" then 3
  else if s = "expert" then 4
  else 2

/-- Line 169: the sort key `skill_order.get(x.get('level', 'intermediate'), 2)`. -/
def courseSortKey (c : Course) : Nat := skill_order_get (c.level.getD "intermediate")

/-- Lines 167-170: `sorted(courses, key=...)`, Python's stable ascending sort. -/
def sortedByLevel (courses : List Course) : List Course :=
  List.insertionSort (fun a b => courseSortKey a ≤ courseSortKey b) courses

/-- Lines 180-185: the position-based reason, where `n` is the length of the
full (pre-truncation) sorted candidate list, exactly as the source compares
`i < len(sorted_courses) - 1`. -/
def pathReason (i n : Nat) : String :=
  if i = 0 then "Foundation course to establish core knowledge"
  else if i < n - 1 then "Builds upon previous concepts and introduces new skills"
  else "Advanced course to master the subject area"

/-- Lines 187-198: the recommendation built for a selected course. -/
def pathCourseRec (c : Course) (reason : String) : CourseRecommendation :=
  { course_id := c.course_id.getD ""
    title := c.title.getD ""
    provider := c.provider.getD ""
    level := c.level.getD ""
    duration_hours := c.duration_hours.getD 0
    modality := c.modality.getD ""
    tags := c.tags.getD []
    recommendation_score := c.similarity_score.getD (7/10)
    recommendation_reason := reason
    similarity_score := c.similarity_score.getD (7/10) }

/-- Lines 176-200: `for i, course in enumerate(sorted_courses[:6])`, rendered
with an explicit running index `i`; `n` is `len(sorted_courses)`. -/
def pathRecs (n : Nat) : Nat → List Course → List CourseRecommendation
  | _, [] => []
  | i, c :: cs => pathCourseRec c (pathReason i n) :: pathRecs n (i + 1) cs

/-- Lines 146-228: `generate_learning_path`.  Python `set` iteration order
(used for `skill_levels` and for collecting common tags) is unspecified in
the source; it is modelled as first-occurrence order, and no claim touches
the affected fields. -/
def generate_learning_path (courses : List Course) (target_skill_level : String := "advanced") :
    LearningPath :=
  if courses.isEmpty then
    { path_name := "Empty Learning Path"
      path_description := "No courses provided"
      total_duration_hours := 0
      estimated_completion_months := 0
      skill_progression := []
      courses := [] }
  else
    let sorted_courses := sortedByLevel courses
    let selected := sorted_courses.take 6
    let course_recommendations := pathRecs sorted_courses.length 0 selected
    let total_duration : Int := (selected.map (fun c => c.duration_hours.getD 0)).sum
    let skill_levels := dedupKeepFirst (sorted_courses.map (fun c => c.level.getD "intermediate"))
    let skill_progression :=
      List.insertionSort (fun a b => skill_order_get a ≤ skill_order_get b) skill_levels
    let estimated_months : Int := max 1 (Int.fdiv total_duration 20)
    let all_tags := (sorted_courses.map (fun c => c.tags.getD [])).flatten
    let common_tags := (dedupKeepFirst all_tags).filter (fun t => 1 < all_tags.count t)
    let path_name :=
      if common_tags.isEmpty then "Professional Development Path"
      else String.intercalate " & " (common_tags.take 2) ++ " Learning Path"
    { path_name := path_name
      path_description :=
        "Structured learning path progressing from " ++ skill_progression.headD "beginner"
          ++ " to " ++ target_skill_level ++ " level"
      total_duration_hours := total_duration
      estimated_completion_months := estimated_months
      skill_progression := skill_progression
      courses := course_recommendations }

/-- The `SkillGapAnalysis` pydantic model. -/
structure SkillGapAnalysis where
  gap_severity : String
  identified_gaps : List String
  prerequisite_issues : List String
  recommended_additional_courses : List String
deriving Repr

/-- Lines 248-274: the per-course scan accumulating `identified_gaps`
(first component) and `prerequisite_issues` (second component). -/
def skillGapScan (target_courses : List Course) (bg : String) (completed : List String) :
    List String × List String :=
  target_courses.foldl
    (fun acc course =>
      let course_level := pyLower (course.level.getD "intermediate")
      let prerequisites := course.prerequisites.getD []
      let acc :=
        if course_level = "advanced" ∧ pyIn "beginner" (pyLower bg) then
          (acc.1 ++ ["Intermediate " ++ course.title.getD "course" ++ " knowledge"],
           acc.2 ++ ["Course \x27" ++ course.title.getD "" ++ "\x27 may be too advanced"])
        else acc
      prerequisites.foldl
        (fun acc prereq =>
          let prereq_met :=
            pyIn (pyLower prereq) (pyLower bg)
            || completed.any (fun comp => pyIn (pyLower prereq) (pyLower comp))
          if prereq_met then acc
          else (acc.1 ++ [prereq], acc.2 ++ ["Missing prerequisite: " ++ prereq]))
        acc)
    ([], [])

/-- Lines 276-283: the severity classification, applied by the source to the
raw (pre-deduplication) gap list length. -/
def gapSeverityOfCount (gap_count : Nat) : String :=
  if gap_count = 0 then "Low"
  else if gap_count ≤ 2 then "Medium"
  else "High"

/-- A row of the `course_catalog` SQLite table, with the JSON-encoded list
columns already deserialized and the embedding blob as an optional vector. -/
structure CatalogRow where
  course_id : String := ""
  title : String := ""
  provider : String := ""
  level : String := ""
  duration_hours : Int := 0
  modality : String := ""
  tags : List String := []
  prerequisites : List String := []
  valid_regions : List String := []
  course_content : Option String := none
  content_embedding : Option (List ℚ) := none
deriving Repr

/-- SQLite `LIKE` with surrounding wildcards (ASCII case-insensitive). -/
def sqlLikeContains (hay pat : String) : Bool := pyIn (pyLower pat) (pyLower hay)

/-- Lines 292-304: the bridge-course lookup for one gap: the first
beginner-level row whose title or serialized tags column matches, else the
synthesized placeholder identifier. -/
def bridgeCourseFor (store : List CatalogRow) (gap : String) : String :=
  match store.find? (fun row =>
      row.level == "beginner"
      && (sqlLikeContains row.title gap
          || sqlLikeContains (String.intercalate ", " row.tags) gap)) with
  | some row => row.title
  | none => "introductory_" ++ (pyLower gap).replace " " "_" ++ "_course"

/-- Lines 231-313: `perform_skill_gap_analysis`.  The severity is computed
from the raw gap list; `list(set(identified_gaps))` at the return site is
modelled by `dedupKeepFirst`. -/
def perform_skill_gap_analysis (store : List CatalogRow) (target_courses : List Course)
    (user_background : Option String := none) (completed_courses : Option (List String) := none) :
    SkillGapAnalysis :=
  let completed := completed_courses.getD []
  let bg := user_background.getD ""
  let scan := skillGapScan target_courses bg completed
  let identified_gaps := scan.1
  let gap_severity := gapSeverityOfCount identified_gaps.length
  let recommended_additional :=
    if identified_gaps.isEmpty then []
    else (identified_gaps.take 3).map (bridgeCourseFor store)
  { gap_severity := gap_severity
    identified_gaps := dedupKeepFirst identified_gaps
    prerequisite_issues := scan.2
    recommended_additional_courses := recommended_additional }

/-- A Python exception, reduced to the two attributes the repository code
inspects: `str(e)` and `type(e).__name__`. -/
structure PyErr where
  message : String
  etype : String
deriving Repr, DecidableEq

/-- Line 200: `auth_keywords = [...]`. -/
def auth_keywords : List String :=
  ["api key", "authentication", "credentials", "unauthorized", "bxnim0415e", "invalidcredentials"]

/-- Lines 196-202: the authentication-kind test applied in the handler of
`search_courses_by_vector`: any keyword occurs in the lowercased message, or
`credential`/`auth` occurs in the lowercased exception type name. -/
def isAuthError (e : PyErr) : Bool :=
  auth_keywords.any (fun k => pyIn k (pyLower e.message))
  || pyIn "credential" (pyLower e.etype)
  || pyIn "auth" (pyLower e.etype)

/-- The `CourseSearchResult` pydantic model of `vector_search.py`. -/
structure CourseSearchResult where
  course_id : String
  title : String
  provider : String
  level : String
  duration_hours : Int
  modality : String
  tags : List String
  prerequisites : List String
  similarity_score : ℚ
  content_preview : String
  valid_regions : List String
deriving Repr, DecidableEq

/-- Line 152: the Python truthiness test `if row[10]:` on the embedding blob
(NULL or an empty byte string is falsy). -/
def embeddingTruthy (row : CatalogRow) : Bool :=
  match row.content_embedding with
  | some l => !l.isEmpty
  | none => false

/-- Lines 176-190: building one `CourseSearchResult` from a scored row;
`content_preview` is the first 200 characters of the body text, falling back
to the title when the body is NULL or empty. -/
def buildSearchResult (item : CatalogRow × ℚ) : CourseSearchResult :=
  { course_id := item.1.course_id
    title := item.1.title
    provider := item.1.provider
    level := item.1.level
    duration_hours := item.1.duration_hours
    modality := item.1.modality
    tags := item.1.tags
    prerequisites := item.1.prerequisites
    similarity_score := item.2
    content_preview :=
      match item.1.course_content with
      | some c => if c ≠ "" then c.take 200 else item.1.title.take 200
      | none => item.1.title.take 200
    valid_regions := item.1.valid_regions }

/-- Lines 137-190: the successful body of the guarded retrieval.  Each
fetched row is paired with the cosine similarity of its embedding to the
query embedding; the real-valued numpy arithmetic producing that number is
an external collaborator and is abstracted as the supplied value, while the
SQL NULL filter, the truthiness re-filter, the stable descending sort and
the truncation are embedded directly. -/
def searchSuccess (rows : List (CatalogRow × ℚ)) (limit : Nat) : List CourseSearchResult :=
  let fetched := rows.filter (fun rc => rc.1.content_embedding.isSome)
  let similarities := fetched.filter (fun rc => embeddingTruthy rc.1)
  let sorted := List.insertionSort (fun a b : CatalogRow × ℚ => b.2 ≤ a.2) similarities
  (sorted.take limit).map buildSearchResult

/-- Lines 206-220: the single placeholder result returned for
non-authentication failures. -/
def sampleResult (query_text : String) : CourseSearchResult :=
  { course_id := "sample_001"
    title := "Sample Course for: " ++ query_text
    provider := "Sample Provider"
    level := "intermediate"
    duration_hours := 20
    modality := "online"
    tags := ["sample", "development"]
    prerequisites := ["basic knowledge"]
    similarity_score := 17/20
    content_preview := "This is a sample course matching your query: " ++ query_text
    valid_regions := ["US", "EU"] }

/-- Lines 55-222: `search_courses_by_vector`.  The query check and the two
credential-presence checks run before the guarded region and raise
unconditionally; everything from embedding the query onward is the `try`
body, abstracted as `tryOutcome` (a fetched-rows success or the exception it
raised), to which the handler of lines 194-220 is applied. -/
def search_courses_by_vector (query_text : String) (api_key project_id : Option String)
    (tryOutcome : Except PyErr (List (CatalogRow × ℚ))) (limit : Nat := 3) :
    Except PyErr (List CourseSearchResult) :=
  if query_text = "" then
    Except.error { message := "query_text is required and must be a string", etype := "ValueError" }
  else if api_key.getD "" = "" then
    Except.error { message := "WATSONX_API_KEY environment variable is required", etype := "ValueError" }
  else if project_id.getD "" = "" then
    Except.error { message := "WATSONX_PROJECT_ID environment variable is required", etype := "ValueError" }
  else
    match tryOutcome with
    | Except.ok rows => Except.ok (searchSuccess rows limit)
    | Except.error e =>
      if isAuthError e then Except.error e else Except.ok [sampleResult query_text]

/-- Line 250: the `return results` statement executed when the seed lookup
fails; `results` is a local variable first assigned only later (lines 262 and
311), so CPython raises `UnboundLocalError` at this point. -/
def unboundLocalResults : PyErr :=
  { message := "local variable results referenced before assignment"
    etype := "UnboundLocalError" }

/-- Tests whether an exception is a NotFound-kind error by its type name. -/
def notFoundKind (e : PyErr) : Bool := pyIn "notfound" (pyLower e.etype)

/-- Lines 225-327: `get_similar_courses`.  `simTo` abstracts the cosine
similarity of a stored row to the seed embedding (external numpy
arithmetic); the seed lookup, the exclusion of the seed row, the truthiness
filter, the stable descending sort and the truncation follow the source.
The inner `except` fallback never fires in the pure embedding, since none of
the embedded steps can raise. -/
def get_similar_courses (store : List CatalogRow) (simTo : CatalogRow → ℚ)
    (course_id : String) (limit : Nat := 5) : Except PyErr (List CourseSearchResult) :=
  let ref_result :=
    store.find? (fun row => row.course_id == course_id && row.content_embedding.isSome)
  match ref_result with
  | none => Except.error unboundLocalResults
  | some _ =>
    let fetched :=
      store.filter (fun row => row.content_embedding.isSome && row.course_id != course_id)
    let similarities := (fetched.filter embeddingTruthy).map (fun row => (row, simTo row))
    let sorted := List.insertionSort (fun a b : CatalogRow × ℚ => b.2 ≤ a.2) similarities
    Except.ok ((sorted.take limit).map buildSearchResult)

/-- Projects an `Except`-valued search outcome to the number of results of a
normal return. -/
def resultLen (r : Except PyErr (List CourseSearchResult)) : Option Nat :=
  match r with
  | Except.ok l => some l.length
  | Except.error _ => none

/-! ## Claim theorems -/

/-- C5: for every list of candidates and every preferences dict, the output of
`analyze_course_recommendations` is sorted in non-increasing order of
`recommendation_score`. -/
theorem scorer_output_sorted_nonincreasing (courses : List Course) (p : Prefs) :
    List.Sorted (fun a b : CourseRecommendation => b.recommendation_score ≤ a.recommendation_score)
      (analyze_course_recommendations courses p) := by
  unfold analyze_course_recommendations
  split
  · exact List.sorted_nil
  · haveI : IsTotal CourseRecommendation
        (fun a b => b.recommendation_score ≤ a.recommendation_score) :=
      ⟨fun a b => le_total _ _⟩
    haveI : IsTrans CourseRecommendation
        (fun a b => b.recommendation_score ≤ a.recommendation_score) :=
      ⟨fun _ _ _ hab hbc => le_trans hbc hab⟩
    exact List.sorted_insertionSort _ _

/-- C3: after the input and credential-presence validation of
`search_courses_by_vector`, a failure of the guarded retrieval steps is
re-raised exactly when it is an authentication-kind error; every other
failure yields a normal return of exactly one placeholder result. -/
theorem retrieve_failure_raises_iff_auth (q : String) (ak pid : Option String) (e : PyErr)
    (hq : q ≠ "") (hak : ak.getD "" ≠ "") (hpid : pid.getD "" ≠ "") :
    (isAuthError e = true →
      search_courses_by_vector q ak pid (Except.error e) = Except.error e)
    ∧ (isAuthError e = false →
      search_courses_by_vector q ak pid (Except.error e) = Except.ok [sampleResult q]
      ∧ [sampleResult q].length = 1) := by
  constructor
  · intro ha
    simp [search_courses_by_vector, hq, hak, hpid, ha]
  · intro ha
    refine ⟨?_, rfl⟩
    simp [search_courses_by_vector, hq, hak, hpid, ha]

/-- Witness for C3 at a concrete non-authentication store failure. -/
theorem retrieve_failure_raises_iff_auth_witness :
    search_courses_by_vector "python courses" (some "key") (some "proj")
        (Except.error { message := "database is locked", etype := "OperationalError" })
      = Except.ok [sampleResult "python courses"] :=
  ((retrieve_failure_raises_iff_auth "python courses" (some "key") (some "proj")
      { message := "database is locked", etype := "OperationalError" }
      (by decide) (by decide) (by decide)).2 (by decide)).1

/-- C6: `get_similar_courses` on a seed course that is absent from the store
(empty catalog) or whose record has no `content_embedding` fails, but with an
`UnboundLocalError` (the `return results` at line 250 references a local
assigned only later), not with a NotFound-kind error. -/
theorem get_similar_courses_missing_seed_unbound_local :
    get_similar_courses [] (fun _ => 0) "course_404" = Except.error unboundLocalResults
    ∧ get_similar_courses [{ course_id := "c1", content_embedding := none }] (fun _ => 0) "c1"
        = Except.error unboundLocalResults
    ∧ unboundLocalResults.etype = "UnboundLocalError"
    ∧ notFoundKind unboundLocalResults = false := by
  refine ⟨rfl, ?_, rfl, by decide⟩
  rfl

/-- Length of a successful retrieval: the limit capped by the number of rows
surviving the two embedding filters. -/
theorem searchSuccess_length (rows : List (CatalogRow × ℚ)) (limit : Nat) :
    (searchSuccess rows limit).length
      = min limit ((rows.filter (fun rc => rc.1.content_embedding.isSome)).filter
          (fun rc => embeddingTruthy rc.1)).length := by
  unfold searchSuccess
  rw [List.length_map, List.length_take, (List.perm_insertionSort _ _).length_eq]

/-- A stored row with a non-empty embedding, for concrete evaluations. -/
def rowE (cid : String) : CatalogRow := { course_id := cid, content_embedding := some [1] }

/-- Four fetched rows with embeddings. -/
def demoRows : List (CatalogRow × ℚ) := [(rowE "a", 0), (rowE "b", 0), (rowE "c", 0), (rowE "d", 0)]

/-- C7 counterexample: with four embedded courses in the store, the default
call of `search_courses_by_vector` returns 3 results while `limit = 10`
returns 4, so the default does not behave as `limit = 10`. -/
theorem retrieve_default_limit_not_ten :
    resultLen (search_courses_by_vector "q" (some "k") (some "p") (Except.ok demoRows)) = some 3
    ∧ resultLen (search_courses_by_vector "q" (some "k") (some "p") (Except.ok demoRows) 10) = some 4
    ∧ search_courses_by_vector "q" (some "k") (some "p") (Except.ok demoRows)
        ≠ search_courses_by_vector "q" (some "k") (some "p") (Except.ok demoRows) 10 := by
  have hs : ∀ lim : Nat, search_courses_by_vector "q" (some "k") (some "p") (Except.ok demoRows) lim
      = Except.ok (searchSuccess demoRows lim) := by
    intro lim
    unfold search_courses_by_vector
    rw [if_neg (by decide), if_neg (by decide), if_neg (by decide)]
  have h1 : resultLen (search_courses_by_vector "q" (some "k") (some "p") (Except.ok demoRows))
      = some 3 := by
    rw [hs 3]
    show some (searchSuccess demoRows 3).length = some 3
    rw [searchSuccess_length]
    decide
  have h2 : resultLen (search_courses_by_vector "q" (some "k") (some "p") (Except.ok demoRows) 10)
      = some 4 := by
    rw [hs 10]
    show some (searchSuccess demoRows 10).length = some 4
    rw [searchSuccess_length]
    decide
  refine ⟨h1, h2, fun h => ?_⟩
  rw [h, h2] at h1
  exact absurd h1 (by decide)

/-- C7 as amended: calling `search_courses_by_vector` without a limit behaves
as `limit = 3` (the default in the source), returning at most 3 results. -/
theorem retrieve_default_limit_is_three (q : String) (ak pid : Option String)
    (outcome : Except PyErr (List (CatalogRow × ℚ))) :
    search_courses_by_vector q ak pid outcome = search_courses_by_vector q ak pid outcome 3
    ∧ ∀ rows : List (CatalogRow × ℚ), (searchSuccess rows 3).length ≤ 3 := by
  refine ⟨rfl, fun rows => ?_⟩
  rw [searchSuccess_length]
  exact min_le_left _ _

/-- C10: a candidate without a `similarity_score` key is scored with the
silent default 0.5, the returned recommendation reports 0.5 as its retained
`similarity_score`, and no candidate is ever rejected (the output has one
recommendation per candidate). -/
theorem scorer_missing_similarity_defaults (c : Course) (p : Prefs)
    (hc : c.similarity_score = none) :
    (analyze_course_recommendations [c] p).map (fun r => r.similarity_score) = [1/2]
    ∧ ∀ cs : List Course, (analyze_course_recommendations cs p).length = cs.length := by
  constructor
  · have hsingle : analyze_course_recommendations [c] p = [scoreCourse p c] := by
      unfold analyze_course_recommendations
      rw [if_neg (by simp)]
      simp [List.insertionSort, List.orderedInsert]
    rw [hsingle]
    simp [scoreCourse, base_score, hc]
  · intro cs
    unfold analyze_course_recommendations
    split
    · rename_i h
      rw [List.isEmpty_iff] at h
      simp [h]
    · rw [(List.perm_insertionSort _ _).length_eq, List.length_map]

/-- Witness for C10 at the fully empty candidate dict. -/
theorem scorer_missing_similarity_defaults_witness :
    (analyze_course_recommendations [{}] {}).map (fun r => r.similarity_score) = [1/2] :=
  (scorer_missing_similarity_defaults {} {} rfl).1

/-- The quality boost is a sum of non-negative increments. -/
theorem quality_boost_nonneg (c : Course) : 0 ≤ quality_boost c := by
  unfold quality_boost
  split_ifs <;> norm_num

/-- The preference boost is a sum of non-negative increments. -/
theorem preference_boost_nonneg (c : Course) (p : Prefs) : 0 ≤ preference_boost c p := by
  unfold preference_boost
  split_ifs <;> norm_num

/-- C1 as amended: every recommendation score is at most 1 (the source clamps
with `min(1.0, ...)` only), and is non-negative whenever the retained base
similarity is non-negative; there is no lower clamp, so a negative
`similarity_score` can drive the score below 0. -/
theorem scorer_score_upper_clamp_only (courses : List Course) (p : Prefs)
    (r : CourseRecommendation) (hr : r ∈ analyze_course_recommendations courses p) :
    r.recommendation_score ≤ 1
    ∧ (0 ≤ r.similarity_score → 0 ≤ r.recommendation_score) := by
  unfold analyze_course_recommendations at hr
  split at hr
  · exact absurd hr (List.not_mem_nil r)
  · rw [(List.perm_insertionSort _ _).mem_iff] at hr
    obtain ⟨c, _, rfl⟩ := List.mem_map.1 hr
    constructor
    · show pymin 1 (base_score c + quality_boost c + preference_boost c p) ≤ 1
      unfold pymin
      split_ifs with h
      · exact le_refl 1
      · exact le_of_not_le h
    · intro hb
      have hb' : (0 : ℚ) ≤ base_score c := hb
      have hq := quality_boost_nonneg c
      have hp := preference_boost_nonneg c p
      show (0 : ℚ) ≤ pymin 1 (base_score c + quality_boost c + preference_boost c p)
      unfold pymin
      split_ifs with h
      · norm_num
      · linarith

/-- Witness for the amended C1 at a concrete candidate. -/
theorem scorer_score_upper_clamp_only_witness :
    (scoreCourse {} {}).recommendation_score ≤ 1
    ∧ (0 ≤ (scoreCourse {} {}).similarity_score → 0 ≤ (scoreCourse {} {}).recommendation_score) :=
  scorer_score_upper_clamp_only [{}] {} (scoreCourse {} {})
    (by unfold analyze_course_recommendations
        rw [if_neg (by simp)]
        simp [List.insertionSort, List.orderedInsert])

/-- A candidate carrying a negative cosine similarity. -/
def negSimCourse : Course := { similarity_score := some (-(1/2)) }

/-- C1 counterexample: a candidate with `similarity_score = -0.5` and empty
preferences yields `recommendation_score = -0.5`, which violates the claimed
lower bound `0 ≤ recommendation_score`. -/
theorem scorer_score_negative_cex :
    (analyze_course_recommendations [negSimCourse] {}).map (fun r => r.recommendation_score)
      = [-(1/2)]
    ∧ ¬ (0 ≤ (-(1/2) : ℚ)) := by
  constructor
  · have hsingle : analyze_course_recommendations [negSimCourse] {}
        = [scoreCourse {} negSimCourse] := by
      unfold analyze_course_recommendations
      rw [if_neg (by simp)]
      simp [List.insertionSort, List.orderedInsert]
    rw [hsingle]
    simp only [scoreCourse, base_score, quality_boost, preference_boost, pymin, negSimCourse,
      reduceCtorEq, if_false, List.map]
    norm_num
  · norm_num

/-- C9 as amended: the +0.10 skill-level boost fires exactly when the stored
preference value equals the lowercased candidate level: the candidate's
level is matched case-insensitively, but the preference value itself is
compared verbatim, so any preference value other than the exact lowercase
form (including differently cased spellings) never matches. -/
theorem scorer_skill_boost_lowercase_only (c : Course) (p : Prefs) (lvl s : String)
    (hl : c.level = some lvl) :
    preference_boost c { p with skill_level := some (pyLower lvl) }
      = preference_boost c { p with skill_level := none } + 1/10
    ∧ (s ≠ pyLower lvl →
        preference_boost c { p with skill_level := some s }
          = preference_boost c { p with skill_level := none }) := by
  have hgetD : c.level.getD "" = lvl := by rw [hl]; rfl
  unfold preference_boost
  dsimp only
  rw [hgetD]
  constructor
  · rw [if_pos rfl]
    simp only [reduceCtorEq, reduceIte]
    ring
  · intro hs
    rw [if_neg (by simp [hs])]
    simp only [reduceCtorEq, reduceIte]

/-- Witness for the amended C9 at a concrete mixed-case level. -/
theorem scorer_skill_boost_lowercase_only_witness :
    preference_boost { level := some "Advanced" } { skill_level := some (pyLower "Advanced") }
      = preference_boost { level := some "Advanced" } ({ skill_level := none } : Prefs) + 1/10
    ∧ ("ADVANCED" ≠ pyLower "Advanced" →
        preference_boost { level := some "Advanced" } { skill_level := some "ADVANCED" }
          = preference_boost { level := some "Advanced" } ({ skill_level := none } : Prefs)) :=
  scorer_skill_boost_lowercase_only { level := some "Advanced" } {} "Advanced" "ADVANCED" rfl

/-- A candidate whose level is stored lowercase. -/
def caseCourse : Course := { level := some "beginner", similarity_score := some (1/2) }

/-- Preferences carrying a capitalized skill level. -/
def casePrefs : Prefs := { skill_level := some "Beginner" }

/-- C9 counterexample: preference `skill_level = "Beginner"` and candidate
`level = "beginner"` agree up to letter case, yet no +0.10 boost is applied:
the recommendation score stays at the bare 0.5 base instead of 0.6. -/
theorem scorer_skill_boost_case_cex :
    (analyze_course_recommendations [caseCourse] casePrefs).map (fun r => r.recommendation_score)
      = [1/2]
    ∧ pyLower "Beginner" = pyLower "beginner"
    ∧ ((1 : ℚ)/2 ≠ 1/2 + 1/10) := by
  refine ⟨?_, by decide, by norm_num⟩
  have hpb : preference_boost caseCourse casePrefs = 0 := by
    unfold preference_boost
    rw [if_neg (by decide), if_neg (by decide), if_neg (by decide), if_neg (by decide)]
    norm_num
  have hqb : quality_boost caseCourse = 0 := by
    unfold quality_boost
    rw [if_neg (by norm_num [caseCourse]), if_neg (by norm_num [caseCourse]),
      if_neg (by norm_num [caseCourse])]
    norm_num
  have hsingle : analyze_course_recommendations [caseCourse] casePrefs
      = [scoreCourse casePrefs caseCourse] := by
    unfold analyze_course_recommendations
    rw [if_neg (by simp)]
    simp [List.insertionSort, List.orderedInsert]
  rw [hsingle]
  simp only [List.map_cons, List.map_nil]
  show [pymin 1 (base_score caseCourse + quality_boost caseCourse
      + preference_boost caseCourse casePrefs)] = [1/2]
  rw [hqb, hpb]
  norm_num [base_score, caseCourse, pymin]

/-- Members of `dedupAux seen l` come from `l` and avoid `seen`. -/
theorem mem_dedupAux {α} [BEq α] [LawfulBEq α] {a : α} :
    ∀ {l seen : List α}, a ∈ dedupAux seen l → a ∈ l ∧ a ∉ seen := by
  intro l
  induction l with
  | nil => intro seen h; simp [dedupAux] at h
  | cons b l ih =>
    intro seen h
    rw [dedupAux] at h
    by_cases hb : seen.contains b
    · rw [if_pos hb] at h
      obtain ⟨h1, h2⟩ := ih h
      exact ⟨List.mem_cons_of_mem _ h1, h2⟩
    · rw [if_neg hb] at h
      rcases List.mem_cons.1 h with rfl | h'
      · refine ⟨List.mem_cons_self _ _, fun hmem => hb ?_⟩
        simpa [List.contains] using hmem
      · obtain ⟨h1, h2⟩ := ih h'
        exact ⟨List.mem_cons_of_mem _ h1, fun hmem => h2 (List.mem_cons_of_mem _ hmem)⟩

/-- `dedupAux` produces a duplicate-free list. -/
theorem nodup_dedupAux {α} [BEq α] [LawfulBEq α] :
    ∀ (l seen : List α), (dedupAux seen l).Nodup := by
  intro l
  induction l with
  | nil => intro seen; simp [dedupAux]
  | cons b l ih =>
    intro seen
    rw [dedupAux]
    by_cases hb : seen.contains b
    · rw [if_pos hb]; exact ih seen
    · rw [if_neg hb]
      refine List.nodup_cons.2 ⟨fun hmem => ?_, ih (b :: seen)⟩
      exact (mem_dedupAux hmem).2 (List.mem_cons_self _ _)

/-- `dedupAux` never lengthens the list. -/
theorem length_dedupAux_le {α} [BEq α] :
    ∀ (l seen : List α), (dedupAux seen l).length ≤ l.length := by
  intro l
  induction l with
  | nil => intro seen; simp [dedupAux]
  | cons b l ih =>
    intro seen
    rw [dedupAux]
    by_cases hb : seen.contains b
    · rw [if_pos hb]
      exact le_trans (ih seen) (Nat.le_succ _)
    · rw [if_neg hb]
      simpa using Nat.succ_le_succ (ih (b :: seen))

/-- C2 as amended: `gap_severity` is a pure function of the length of the raw
`identified_gaps` list accumulated by the scan, before deduplication
(0 → Low, 1-2 → Medium, ≥3 → High); the returned `identified_gaps` is the
deduplication of that raw list, applied only after the severity
classification, so it is duplicate-free and no longer than the raw list while
the severity may exceed the class implied by its length. -/
theorem gap_severity_of_raw_count (store : List CatalogRow) (tcs : List Course)
    (bg : Option String) (cc : Option (List String)) :
    (perform_skill_gap_analysis store tcs bg cc).gap_severity
      = gapSeverityOfCount (skillGapScan tcs (bg.getD "") (cc.getD [])).1.length
    ∧ (perform_skill_gap_analysis store tcs bg cc).identified_gaps
        = dedupKeepFirst (skillGapScan tcs (bg.getD "") (cc.getD [])).1
    ∧ (perform_skill_gap_analysis store tcs bg cc).identified_gaps.Nodup
    ∧ (perform_skill_gap_analysis store tcs bg cc).identified_gaps.length
        ≤ (skillGapScan tcs (bg.getD "") (cc.getD [])).1.length := by
  refine ⟨rfl, rfl, ?_, ?_⟩
  · exact nodup_dedupAux _ _
  · exact length_dedupAux_le _ _

/-- A target course listing the same prerequisite three times. -/
def dupPrereqCourse : Course := { prerequisites := some ["a", "a", "a"] }

/-- C2 counterexample: with one target course whose unmet prerequisite is
recorded three times, the returned deduplicated `identified_gaps` has length
1 but `gap_severity` is High, not the Medium the claimed pure function of the
deduplicated length would give: severity is classified before deduplication. -/
theorem gap_severity_prededup_cex :
    (perform_skill_gap_analysis [] [dupPrereqCourse] none none).identified_gaps.length = 1
    ∧ (perform_skill_gap_analysis [] [dupPrereqCourse] none none).gap_severity = "High"
    ∧ "High" ≠ "Medium" := by
  refine ⟨by decide, by decide, by decide⟩

/-- Inserting into a list moves the new element past exactly the strictly
smaller keys, so each key class keeps its relative order. -/
theorem filter_orderedInsert_key {α} (k : α → Nat) (a : α) (v : Nat) :
    ∀ l : List α,
      (List.orderedInsert (fun x y => k x ≤ k y) a l).filter (fun x => k x = v)
        = ((a :: l).filter (fun x => k x = v)) := by
  intro l
  induction l with
  | nil => rfl
  | cons b l ih =>
    rw [List.orderedInsert]
    by_cases h : k a ≤ k b
    · rw [if_pos h]
    · rw [if_neg h]
      have hb : ¬ (k b = v ∧ k a = v) := fun ⟨h1, h2⟩ => h (by omega)
      by_cases hbv : k b = v <;> by_cases hav : k a = v
      · exact absurd ⟨hbv, hav⟩ hb
      · simp [List.filter_cons, hbv, hav, ih]
      · simp [List.filter_cons, hbv, hav, ih]
      · simp [List.filter_cons, hbv, hav, ih]

/-- Stability of the keyed insertion sort: each key class of the output is the
input's key class in input order. -/
theorem filter_insertionSort_key {α} (k : α → Nat) (v : Nat) :
    ∀ l : List α,
      (List.insertionSort (fun x y => k x ≤ k y) l).filter (fun x => k x = v)
        = l.filter (fun x => k x = v) := by
  intro l
  induction l with
  | nil => rfl
  | cons a l ih =>
    simp only [List.insertionSort]
    rw [filter_orderedInsert_key]
    by_cases hav : k a = v <;> simp [List.filter_cons, hav, ih]

/-- `pathRecs` yields one recommendation per selected course. -/
theorem pathRecs_length (n : Nat) :
    ∀ (i : Nat) (cs : List Course), (pathRecs n i cs).length = cs.length := by
  intro i cs
  induction cs generalizing i with
  | nil => rfl
  | cons c cs ih => simp [pathRecs, ih]

/-- The levels of the built recommendations are the selected courses' levels
(with a missing level stored as the empty string). -/
theorem pathRecs_map_level (n : Nat) :
    ∀ (i : Nat) (cs : List Course),
      (pathRecs n i cs).map (fun r => r.level) = cs.map (fun c => c.level.getD "") := by
  intro i cs
  induction cs generalizing i with
  | nil => rfl
  | cons c cs ih => simp [pathRecs, pathCourseRec, ih]

/-- The skill ordinal of a stored recommendation level agrees with the sort
key of its source course: an absent level is stored as `""` and an unknown
string maps to the same default ordinal 2 as `"intermediate"`. -/
theorem skill_order_get_level (c : Course) :
    skill_order_get (c.level.getD "") = courseSortKey c := by
  cases h : c.level with
  | none => rw [courseSortKey, h]; decide
  | some s => rw [courseSortKey, h]; rfl

/-- The non-empty branch of the path builder produces exactly the indexed
recommendations over the first six level-sorted candidates. -/
theorem path_courses_eq (courses : List Course) (h : courses ≠ []) :
    (generate_learning_path courses).courses
      = pathRecs (sortedByLevel courses).length 0 ((sortedByLevel courses).take 6) := by
  have hne : ¬ (courses.isEmpty = true) := by simp [List.isEmpty_iff, h]
  unfold generate_learning_path
  rw [if_neg hne]

/-- C4: for every non-empty candidate list the Learning Path holds at most 6
courses, they are sorted by non-decreasing skill ordinal (unknown or missing
level counting as intermediate, ordinal 2), and the level-sorted candidate
order is stable: every ordinal class appears in input order. -/
theorem path_size_sorted_and_stable (courses : List Course) (h : courses ≠ []) :
    (generate_learning_path courses).courses.length ≤ 6
    ∧ List.Sorted (fun a b : CourseRecommendation =>
        skill_order_get a.level ≤ skill_order_get b.level)
        (generate_learning_path courses).courses
    ∧ ∀ v : Nat, (sortedByLevel courses).filter (fun c => courseSortKey c = v)
        = courses.filter (fun c => courseSortKey c = v) := by
  have hcourses := path_courses_eq courses h
  refine ⟨?_, ?_, ?_⟩
  · rw [hcourses, pathRecs_length, List.length_take]
    exact min_le_left _ _
  · rw [hcourses]
    have hsorted : List.Sorted (fun a b : Course => courseSortKey a ≤ courseSortKey b)
        (sortedByLevel courses) := by
      haveI : IsTotal Course (fun a b => courseSortKey a ≤ courseSortKey b) :=
        ⟨fun a b => le_total _ _⟩
      haveI : IsTrans Course (fun a b => courseSortKey a ≤ courseSortKey b) :=
        ⟨fun _ _ _ h1 h2 => le_trans h1 h2⟩
      exact List.sorted_insertionSort _ _
    have htake : List.Pairwise (fun a b : Course => courseSortKey a ≤ courseSortKey b)
        ((sortedByLevel courses).take 6) :=
      List.Pairwise.sublist (List.take_sublist 6 _) hsorted
    have hlvl : List.Pairwise (fun a b : String => skill_order_get a ≤ skill_order_get b)
        ((pathRecs (sortedByLevel courses).length 0 ((sortedByLevel courses).take 6)).map
          (fun r => r.level)) := by
      rw [pathRecs_map_level, List.pairwise_map]
      refine htake.imp ?_
      intro a b hab
      rwa [skill_order_get_level, skill_order_get_level]
    rw [List.pairwise_map] at hlvl
    exact hlvl
  · intro v
    unfold sortedByLevel
    exact filter_insertionSort_key courseSortKey v courses

/-- Witness for C4 at a one-course candidate list. -/
theorem path_size_sorted_and_stable_witness :
    (generate_learning_path [{}]).courses.length ≤ 6 :=
  (path_size_sorted_and_stable [{}] (List.cons_ne_nil _ _)).1

/-- The last recommendation built by `pathRecs` is built from the last
selected course, with the reason at index `i + length - 1`. -/
theorem pathRecs_getLast (n : Nat) :
    ∀ (cs : List Course) (i : Nat), cs ≠ [] →
      (pathRecs n i cs).getLast?
        = cs.getLast?.map (fun c => pathCourseRec c (pathReason (i + cs.length - 1) n)) := by
  intro cs
  induction cs with
  | nil => intro i h; exact absurd rfl h
  | cons c cs ih =>
    intro i _
    cases cs with
    | nil => simp [pathRecs]
    | cons c2 cs2 =>
      have hrec : pathRecs n i (c :: c2 :: cs2)
          = pathCourseRec c (pathReason i n) :: pathRecs n (i + 1) (c2 :: cs2) := rfl
      have hrec2 : pathRecs n (i + 1) (c2 :: cs2)
          = pathCourseRec c2 (pathReason (i + 1) n) :: pathRecs n (i + 2) cs2 := rfl
      rw [hrec, hrec2, List.getLast?_cons_cons, ← hrec2, ih (i + 1) (List.cons_ne_nil _ _),
        List.getLast?_cons_cons]
      have : i + 1 + (c2 :: cs2).length - 1 = i + (c :: c2 :: cs2).length - 1 := by
        simp [List.length_cons]
        omega
      rw [this]

/-- C8 as amended: the last course of the Learning Path carries the
"Advanced course..." reason for candidate lists of 2 to 6 courses; the
position comparison `i < len(sorted_courses) - 1` uses the full
pre-truncation list, so with more than 6 candidates the last selected course
is an interior position of the full list and gets the builds-upon reason
instead. -/
theorem path_last_reason_advanced_when_at_most_six (courses : List Course)
    (h2 : 2 ≤ courses.length) (h6 : courses.length ≤ 6) :
    ((generate_learning_path courses).courses.getLast?).map
        (fun r => r.recommendation_reason)
      = some "Advanced course to master the subject area" := by
  have hne : courses ≠ [] := by
    intro hnil
    rw [hnil] at h2
    simp at h2
  have hlen : (sortedByLevel courses).length = courses.length :=
    (List.perm_insertionSort _ _).length_eq
  have hsne : sortedByLevel courses ≠ [] := by
    rw [← List.length_pos, hlen]
    omega
  have htake : (sortedByLevel courses).take 6 = sortedByLevel courses :=
    List.take_of_length_le (by omega)
  rw [path_courses_eq courses hne, htake, pathRecs_getLast _ _ _ hsne]
  cases hl : (sortedByLevel courses).getLast? with
  | none => exact absurd (List.getLast?_eq_none_iff.1 hl) hsne
  | some c =>
    simp only [Option.map_some']
    have hreason : pathReason (0 + (sortedByLevel courses).length - 1)
        (sortedByLevel courses).length = "Advanced course to master the subject area" := by
      unfold pathReason
      rw [if_neg (by omega), if_neg (by omega)]
    exact congrArg some hreason

/-- Witness for the amended C8 at a two-course candidate list. -/
theorem path_last_reason_advanced_when_at_most_six_witness :
    ((generate_learning_path [{}, {}]).courses.getLast?).map
        (fun r => r.recommendation_reason)
      = some "Advanced course to master the subject area" :=
  path_last_reason_advanced_when_at_most_six [{}, {}] (by simp) (by simp)

/-- C8 counterexample: with 7 candidates (all default), the last of the 6
selected path courses carries the builds-upon reason, not the claimed
"Advanced course to master the subject area". -/
theorem path_last_reason_seven_candidates_cex :
    ((generate_learning_path (List.replicate 7 ({} : Course))).courses.getLast?).map
        (fun r => r.recommendation_reason)
      = some "Builds upon previous concepts and introduces new skills"
    ∧ "Builds upon previous concepts and introduces new skills"
        ≠ "Advanced course to master the subject area" := by
  constructor
  · have hne : List.replicate 7 ({} : Course) ≠ [] := by
      rw [← List.length_pos, List.length_replicate]
      omega
    have hlen : (sortedByLevel (List.replicate 7 ({} : Course))).length = 7 := by
      have hp := (List.perm_insertionSort
        (fun a b : Course => courseSortKey a ≤ courseSortKey b)
        (List.replicate 7 ({} : Course))).length_eq
      rw [List.length_replicate] at hp
      exact hp
    have htne : (sortedByLevel (List.replicate 7 ({} : Course))).take 6 ≠ [] := by
      rw [← List.length_pos, List.length_take, hlen]
      omega
    rw [path_courses_eq _ hne, pathRecs_getLast _ _ _ htne]
    cases hl : ((sortedByLevel (List.replicate 7 ({} : Course))).take 6).getLast? with
    | none => exact absurd (List.getLast?_eq_none_iff.1 hl) htne
    | some c =>
      simp only [Option.map_some']
      have hltake : ((sortedByLevel (List.replicate 7 ({} : Course))).take 6).length = 6 := by
        rw [List.length_take, hlen]
        decide
      have hreason : pathReason
          (0 + ((sortedByLevel (List.replicate 7 ({} : Course))).take 6).length - 1)
          (sortedByLevel (List.replicate 7 ({} : Course))).length
          = "Builds upon previous concepts and introduces new skills" := by
        rw [hltake, hlen]
        unfold pathReason
        rw [if_neg (by omega), if_pos (by omega)]
      exact congrArg some hreason
  · decide
